import Mathlib

/-!
Verification development for the RqCore robot-trading core.

Shallow embedding conventions:
* Rust `f64` values are modelled as exact rationals (`ℚ`); `f64::NAN` is
  modelled by `Option.none` where a value can be "unresolved".
* Fallible or panicking Rust code is modelled with `Option`/`Except`;
  a call to `.expect(msg)` that fails is `Except.error msg` (the panic
  aborts the surrounding task).
* Wall-clock instants are integers (milliseconds or seconds as noted);
  calendar dates are day numbers since 1970-01-01 (civil conversion below).
* Network effects (HTTP body, JSON parse result, realtime-bar stream) are
  passed in as explicit parameters, so each function is the pure
  state-and-response transformer that the source performs on them.

Sources embedded: `rqcoresrv/src/robotrader/fast_runner.rs`,
`rqcoresrv/src/robotrader/robo_trader.rs`,
`rqcoresrv/src/services/rqtask_scheduler.rs`,
`common/broker-common/src/brokers_watcher.rs`,
`common/rqcommon/src/utils/time.rs`.
-/

namespace RqCore

/-- `RqOrderType` from `brokers_watcher.rs`. -/
inductive RqOrderType where
  | Buy
  | Sell
deriving DecidableEq, Repr

/-- `Weight` from `fast_runner.rs` (untagged serde enum: number or string). -/
inductive Weight where
  | number (x : ℚ)
  | string (s : String)
deriving DecidableEq, Repr

/-- `TransactionEvent` from `fast_runner.rs`.  `pos_weight`/`pos_market_value`
are the calculated fields (f64, modelled as `ℚ`). -/
structure TransactionEvent where
  transaction_id : String
  order_type : RqOrderType
  action_date : String
  ticker : String
  company_name : String
  starting_weight : Option Weight
  new_weight : Option Weight
  price : Option String
  pos_weight : ℚ
  pos_market_value : ℚ
deriving DecidableEq, Repr

/-- `RqOrder` from `brokers_watcher.rs`. -/
structure RqOrder where
  order_type : RqOrderType
  ticker : String
  company_name : String
  pos_market_value : ℚ
  known_last_price : Option ℚ
deriving DecidableEq, Repr

/-- The mutable state of one `FastRunner` instance (one TradingSession),
from `fast_runner.rs`.  File modification times are abstract naturals. -/
structure FastRunnerState where
  is_simulation : Bool
  loop_sleep_ms_simulation : ℕ
  loop_sleep_ms_realtrading : ℕ
  has_trading_ever_started : Bool
  cookies : Option String
  cookies_file_last_modtime : Option ℕ
  m_is_cookies_surely_working : Bool
  pqp_json_target_date_str : String
  pqp_is_run_today : Bool
  ap_json_target_date_str : String
  ap_is_run_today : Bool
  pqp_buy_pv : ℚ
  pqp_sell_pv : ℚ
  ap_buy_pv : ℚ
  user_log : String
deriving DecidableEq, Repr

/-- `FastRunner::new()`. -/
def FastRunner_new : FastRunnerState :=
  { is_simulation := true
    loop_sleep_ms_simulation := 3750
    loop_sleep_ms_realtrading := 0
    has_trading_ever_started := false
    cookies := none
    cookies_file_last_modtime := none
    m_is_cookies_surely_working := false
    pqp_json_target_date_str := ""
    pqp_is_run_today := false
    ap_json_target_date_str := ""
    ap_is_run_today := false
    pqp_buy_pv := 50000
    pqp_sell_pv := 30000
    ap_buy_pv := 50000
    user_log := "" }

/-- `FastRunner::count_order_types`: count buy and sell events
(filter + count in the source). -/
def count_order_types (events : List TransactionEvent) : ℕ × ℕ :=
  let buy_count := (events.filter fun e =>
    match e.order_type with
    | RqOrderType.Buy => true
    | RqOrderType.Sell => false).length
  let sell_count := (events.filter fun e =>
    match e.order_type with
    | RqOrderType.Buy => false
    | RqOrderType.Sell => true).length
  (buy_count, sell_count)

/-- The per-buy-position market value computed inside
`determine_position_market_values_pqp_gyantal`:
`pqp_buy_pv / buy_count` when `buy_count > 0`, else `0.0`. -/
def pqp_buy_pos_mkt_value (s : FastRunnerState) (events : List TransactionEvent) : ℚ :=
  let c := count_order_types events
  if 0 < c.1 then s.pqp_buy_pv / (c.1 : ℚ) else 0

/-- The per-sell-position market value computed inside
`determine_position_market_values_pqp_gyantal`. -/
def pqp_sell_pos_mkt_value (s : FastRunnerState) (events : List TransactionEvent) : ℚ :=
  let c := count_order_types events
  if 0 < c.2 then s.pqp_sell_pv / (c.2 : ℚ) else 0

/-- `FastRunner::determine_position_market_values_pqp_gyantal`. -/
def determine_position_market_values_pqp_gyantal
    (s : FastRunnerState) (events : List TransactionEvent) : List TransactionEvent :=
  events.map fun e =>
    { e with pos_market_value :=
        match e.order_type with
        | RqOrderType.Buy => pqp_buy_pos_mkt_value s events
        | RqOrderType.Sell => pqp_sell_pos_mkt_value s events }

/-- The per-buy-position market value computed inside
`determine_position_market_values_ap_gyantal`. -/
def ap_buy_pos_mkt_value (s : FastRunnerState) (events : List TransactionEvent) : ℚ :=
  let c := count_order_types events
  if 0 < c.1 then s.ap_buy_pv / (c.1 : ℚ) else 0

/-- `FastRunner::determine_position_market_values_ap_gyantal`
(sell events get value `0.0`). -/
def determine_position_market_values_ap_gyantal
    (s : FastRunnerState) (events : List TransactionEvent) : List TransactionEvent :=
  events.map fun e =>
    { e with pos_market_value :=
        match e.order_type with
        | RqOrderType.Buy => ap_buy_pos_mkt_value s events
        | RqOrderType.Sell => 0 }

/-- Model of Rust `str::parse::<f64>()` restricted to plain decimal
literals: optional sign, an integer part and/or a fractional part with at
least one digit in total, nothing else.  (The exponent/`inf`/`NaN` forms
accepted by Rust are outside the model; the inputs occurring in this
program are plain decimals such as `"182.50"`.) -/
def rust_parse_f64 (s : String) : Option ℚ :=
  let cs := s.toList
  let signAndRest : Bool × List Char :=
    match cs with
    | '-' :: rest => (true, rest)
    | '+' :: rest => (false, rest)
    | rest => (false, rest)
  let intDigits := signAndRest.2.takeWhile Char.isDigit
  let afterInt := signAndRest.2.dropWhile Char.isDigit
  let fracPart : Option (List Char) :=
    match afterInt with
    | [] => some []
    | '.' :: rest =>
      if rest.all Char.isDigit then some rest else none
    | _ => none
  match fracPart with
  | none => none
  | some fracDigits =>
    if intDigits.isEmpty && fracDigits.isEmpty then none
    else
      let intVal : ℕ := intDigits.foldl (fun acc c => 10 * acc + (c.toNat - 48)) 0
      let fracVal : ℕ := fracDigits.foldl (fun acc c => 10 * acc + (c.toNat - 48)) 0
      let mag : ℚ := (intVal : ℚ) + (fracVal : ℚ) / ((10 : ℚ) ^ fracDigits.length)
      some (if signAndRest.1 then -mag else mag)

/-- `FastRunner::build_rqorders`: one `RqOrder` per event;
`known_last_price` is the event's price string run through
`str::parse::<f64>().ok()`. -/
def build_rqorders (events : List TransactionEvent) : List RqOrder :=
  events.map fun event =>
    { order_type := event.order_type
      ticker := event.ticker
      company_name := event.company_name
      pos_market_value := event.pos_market_value
      known_last_price := event.price.bind rust_parse_f64 }

/-- One tick of `FastRunner::fastrunning_loop_pqp_impl`, as a function of
the detector's event list for that tick.  The second component is
`some orders` exactly when `RoboTrader::place_orders("SA_PQP", orders, _)`
is reached on this tick. -/
def fastrunning_loop_pqp_impl (s : FastRunnerState)
    (new_transaction_events : List TransactionEvent) :
    FastRunnerState × Option (List RqOrder) :=
  let num_new_events := new_transaction_events.length
  if num_new_events = 0 then (s, none)
  else if 14 < num_new_events then (s, none)
  else
    let sized := determine_position_market_values_pqp_gyantal s new_transaction_events
    let rqorders := build_rqorders sized
    if s.has_trading_ever_started then (s, none)
    else ({ s with has_trading_ever_started := true }, some rqorders)

/-- One tick of `FastRunner::fastrunning_loop_ap_impl` (cap is 2 events). -/
def fastrunning_loop_ap_impl (s : FastRunnerState)
    (new_transaction_events : List TransactionEvent) :
    FastRunnerState × Option (List RqOrder) :=
  let num_new_events := new_transaction_events.length
  if num_new_events = 0 then (s, none)
  else if 2 < num_new_events then (s, none)
  else
    let sized := determine_position_market_values_ap_gyantal s new_transaction_events
    let rqorders := build_rqorders sized
    if s.has_trading_ever_started then (s, none)
    else ({ s with has_trading_ever_started := true }, some rqorders)

/-- Which strategy's loop body a poll tick runs. -/
inductive Strategy where
  | pqp
  | ap
deriving DecidableEq, Repr

/-- Run one poll tick of the given strategy's loop body. -/
def runTick (s : FastRunnerState) (t : Strategy × List TransactionEvent) :
    FastRunnerState × Option (List RqOrder) :=
  match t.1 with
  | Strategy.pqp => fastrunning_loop_pqp_impl s t.2
  | Strategy.ap => fastrunning_loop_ap_impl s t.2

/-- Run a sequence of poll ticks; the second component counts how many
ticks reached the `RoboTrader::place_orders` call. -/
def runTicks (s : FastRunnerState) :
    List (Strategy × List TransactionEvent) → FastRunnerState × ℕ
  | [] => (s, 0)
  | t :: ts =>
    let r := runTick s t
    let rest := runTicks r.1 ts
    (rest.1, (if r.2.isSome then 1 else 0) + rest.2)

/-- What `FastRunner::ensure_cookies_loaded` touches on disk during one call. -/
inductive FileAccess where
  | noAccess
  | statOnly
  | statAndRead
deriving DecidableEq, Repr

/-- `FastRunner::ensure_cookies_loaded`.  The cookie file's current
modification time and contents are parameters; the result records the
new state and which file operations the call performed. -/
def ensure_cookies_loaded (s : FastRunnerState)
    (file_modified_time : ℕ) (file_content : String) :
    FastRunnerState × FileAccess :=
  if s.m_is_cookies_surely_working then (s, FileAccess.noAccess)
  else
    let need_reload := s.cookies.isNone ||
      (match s.cookies_file_last_modtime with
       | some t => decide (t ≠ file_modified_time)
       | none => true)
    if need_reload then
      ({ s with
          cookies := some file_content.trim
          cookies_file_last_modtime := some file_modified_time },
       FileAccess.statAndRead)
    else (s, FileAccess.statOnly)

/-- Rust `str::contains` on plain needles, as list-infix of the
character sequences. -/
def contains_substr (hay pat : String) : Bool :=
  decide (pat.toList <:+: hay.toList)

/-- `TransactionAttributes` from `fast_runner.rs` (serde target). -/
structure TransactionAttributes where
  id : ℤ
  action : String
  action_date : String
  starting_weight : Option Weight
  new_weight : Option Weight
  rule : Option String
  status : Option String
  price : Option String
deriving DecidableEq, Repr

/-- `TickerData` from `fast_runner.rs`. -/
structure TickerData where
  id : String
  type_ : String
deriving DecidableEq, Repr

/-- `Transaction` from `fast_runner.rs` (`relationships.ticker.data`
flattened to its one payload). -/
structure Transaction where
  id : String
  type_ : String
  attributes : TransactionAttributes
  ticker_data : TickerData
deriving DecidableEq, Repr

/-- `StockAttributes` from `fast_runner.rs`. -/
structure StockAttributes where
  name : String
  company_name : String
deriving DecidableEq, Repr

/-- `Stock` from `fast_runner.rs`. -/
structure Stock where
  id : String
  type_ : String
  attributes : StockAttributes
deriving DecidableEq, Repr

/-- `PortfhistResponse` from `fast_runner.rs`. -/
structure PortfhistResponse where
  data : List Transaction
  included : List Stock
deriving DecidableEq, Repr

/-- The `stocks` HashMap of `get_new_transactions_pqp`: inserting every
included stock keyed by id (later inserts overwrite) and then looking one
id up, i.e. the last included `Stock` with that id. -/
def stocks_lookup (included : List Stock) (i : String) : Option Stock :=
  included.foldl (fun acc stock => if stock.id = i then some stock else acc) none

/-- The target-date event collection loop of `get_new_transactions_pqp`
(lines filtering `transactions` into `new_transaction_events`). -/
def events_from_portfhist (target_date : String) (resp : PortfhistResponse) :
    List TransactionEvent :=
  resp.data.filterMap fun transaction =>
    if transaction.attributes.action_date ≠ target_date then none
    else if transaction.attributes.rule = some ("rebalance") then none
    else
      let stock := stocks_lookup resp.included transaction.ticker_data.id
      let order_type : Option RqOrderType :=
        match transaction.attributes.action with
        | "buy" => some RqOrderType.Buy
        | "sell" => some RqOrderType.Sell
        | _ => none
      match stock, order_type with
      | some stock, some order_type =>
        some { transaction_id := transaction.id
               order_type := order_type
               action_date := transaction.attributes.action_date
               ticker := stock.attributes.name
               company_name := stock.attributes.company_name
               starting_weight := transaction.attributes.starting_weight
               new_weight := transaction.attributes.new_weight
               price := transaction.attributes.price
               pos_weight := 0
               pos_market_value := 0 }
      | _, _ => none

/-- `FastRunner::get_new_transactions_pqp` after the HTTP fetch
(response classification, parse, event collection, Analysis fallback).
`parse` is the result of `serde_json::from_str` on the body (`none` =
parse error); `analysis_result` is the awaited PQP-Analysis task's
result (`Except.error` = `JoinError`, which is logged and ignored).
`Except.error msg` models the `.expect(msg)` panic that aborts the task;
log-message formatting arguments are elided from the appended strings. -/
def get_new_transactions_pqp_after_fetch (s : FastRunnerState)
    (body_text : String) (parse : Option PortfhistResponse)
    (analysis_result : Except Unit (String × List TransactionEvent)) :
    Except String (FastRunnerState × String × List TransactionEvent) :=
  let after_markers : Except String (FastRunnerState × String × List TransactionEvent) :=
    match parse with
    | none => Except.error ("serde_json::from_str() failed!")
    | some portfhist_response =>
      let transactions := portfhist_response.data
      let s1 :=
        if !transactions.isEmpty then { s with m_is_cookies_surely_working := true }
        else s
      let s2 := { s1 with user_log := s1.user_log ++ "Found transactions, stocks\n" }
      let new_transaction_events :=
        events_from_portfhist s.pqp_json_target_date_str portfhist_response
      if new_transaction_events.isEmpty then
        match analysis_result with
        | Except.ok result => Except.ok (s2, result)
        | Except.error _ =>
          Except.ok (s2, s.pqp_json_target_date_str, new_transaction_events)
      else Except.ok (s2, s.pqp_json_target_date_str, new_transaction_events)
  if body_text.length < 1000 then
    if contains_substr body_text ("Subscription is required") then
      Except.ok
        ({ s with user_log := s.user_log ++ "!Error. No permission, Update cookie file.\n" },
         s.pqp_json_target_date_str, [])
    else if contains_substr body_text ("captcha.js") then
      Except.ok
        ({ s with user_log := s.user_log ++
            "!Error. Captcha required, Update cookie file AND handle Captcha in browser.\n" },
         s.pqp_json_target_date_str, [])
    else after_markers
  else after_markers

/-- `TagAttributes` from `fast_runner.rs`. -/
structure TagAttributes where
  slug : Option String
  name : Option String
  company : Option String
deriving DecidableEq, Repr

/-- `ArticleAttributes` from `fast_runner.rs`. -/
structure ArticleAttributes where
  publish_on : String
  title : String
deriving DecidableEq, Repr

/-- `RelationshipData` from `fast_runner.rs`. -/
structure RelationshipData where
  id : String
  type_ : String
deriving DecidableEq, Repr

/-- `Article` from `fast_runner.rs` (`relationships.primaryTickers.data`
flattened to an optional list). -/
structure Article where
  id : String
  type_ : String
  attributes : ArticleAttributes
  primary_tickers : Option (List RelationshipData)
deriving DecidableEq, Repr

/-- `IncludedItem` from `fast_runner.rs`; `attributes` holds the result of
`serde_json::from_value::<TagAttributes>` on the raw JSON value
(`none` = that conversion failed and the item is skipped). -/
structure IncludedItem where
  id : String
  type_ : String
  attributes : Option TagAttributes
deriving DecidableEq, Repr

/-- `AnalysisResponse` from `fast_runner.rs`. -/
structure AnalysisResponse where
  data : List Article
  included : List IncludedItem
deriving DecidableEq, Repr

/-- The `tag_lookup` HashMap of the analysis readers: id → (name, company)
for included items of type `"tag"` whose attributes parse; later inserts
overwrite earlier ones. -/
def tag_lookup (included : List IncludedItem) (i : String) :
    Option (String × String) :=
  included.foldl
    (fun acc inc =>
      if inc.type_ = "tag" then
        match inc.attributes with
        | some tag_attr =>
          if inc.id = i then
            some (tag_attr.name.getD "", tag_attr.company.getD "")
          else acc
        | none => acc
      else acc)
    none

/-- Whether the `tag_lookup` map is non-empty (at least one `"tag"`
included item with parsing attributes). -/
def tag_lookup_nonempty (included : List IncludedItem) : Bool :=
  included.any fun inc => inc.type_ = "tag" && inc.attributes.isSome

/-- The article-to-buy-events collection loop shared by
`get_new_transactions_ap` and `get_new_transactions_from_analysis_pqp`:
articles on the target date contribute one Buy event per primary ticker
of type `"tag"` whose looked-up name has no `':'`. -/
def events_from_analysis (target_date : String) (resp : AnalysisResponse) :
    List TransactionEvent :=
  resp.data.flatMap fun article =>
    let publish_on_dateonly := article.attributes.publish_on.take 10
    if publish_on_dateonly ≠ target_date then []
    else
      match article.primary_tickers with
      | none => []
      | some rel_data =>
        rel_data.filterMap fun d =>
          if d.type_ ≠ "tag" then none
          else
            match tag_lookup resp.included d.id with
            | none => none
            | some nc =>
              if nc.1.contains ':' then none
              else
                some { transaction_id := article.id
                       order_type := RqOrderType.Buy
                       action_date := publish_on_dateonly
                       ticker := nc.1
                       company_name := nc.2
                       starting_weight := none
                       new_weight := none
                       price := none
                       pos_weight := 0
                       pos_market_value := 0 }

/-- `FastRunner::get_new_transactions_ap` after the HTTP fetch.
`parse` is the `serde_json::from_str::<AnalysisResponse>` result
(`none` = parse error → `.expect` panic, modelled as `Except.error`). -/
def get_new_transactions_ap_after_fetch (s : FastRunnerState)
    (body_text : String) (parse : Option AnalysisResponse) :
    Except String (FastRunnerState × String × List TransactionEvent) :=
  if !contains_substr body_text ("\"isPaywalled\":false") then
    Except.ok (s, s.ap_json_target_date_str, [])
  else if contains_substr body_text ("captcha.js") then
    Except.ok (s, s.ap_json_target_date_str, [])
  else
    match parse with
    | none => Except.error ("serde_json::from_str() failed for AnalysisResponse!")
    | some analysis_response =>
      let s1 :=
        if tag_lookup_nonempty analysis_response.included then
          { s with m_is_cookies_surely_working := true }
        else s
      Except.ok (s1, s.ap_json_target_date_str,
        events_from_analysis s.ap_json_target_date_str analysis_response)

/-- `BrokersWatcher::get_price`.  `known_last_price` is the order's parsed
known price (a NaN value cannot arise from a successful parse, so the
source's `!price.is_nan()` guard is the `some` case).  `bars` is the finite
sequence of items the realtime-bar subscription delivers before closing
(`Except.error` = an errored bar result, which is logged and leaves the
price NaN); the loop breaks after the first item.  Result: the resolved
price (`none` = NaN) and whether a realtime-bar network request was made. -/
def get_price (known_last_price : Option ℚ) (bars : List (Except Unit ℚ)) :
    Option ℚ × Bool :=
  match known_last_price with
  | some price => (some price, false)
  | none =>
    match bars with
    | [] => (none, true)
    | Except.ok bar :: _ => (some bar, true)
    | Except.error _ :: _ => (none, true)

/-- `i32::MAX`. -/
def i32_max : ℤ := 2147483647

/-- `i32::MIN`. -/
def i32_min : ℤ := -2147483648

/-- `(v / price).floor() as i32` under `f64` semantics: division by zero
yields ±∞ (or NaN for 0/0), and the `as i32` cast saturates (∞ → `i32::MAX`,
−∞ → `i32::MIN`, NaN → 0); finite quotients floor and saturate. -/
def f64_div_floor_as_i32 (v price : ℚ) : ℤ :=
  if price = 0 then
    if 0 < v then i32_max
    else if v < 0 then i32_min
    else 0
  else max i32_min (min i32_max ⌊v / price⌋)

/-- `f64::round` (round half away from zero), on the rational model. -/
def rust_round (q : ℚ) : ℤ :=
  if 0 ≤ q then ⌊q + 1 / 2⌋ else -⌊-q + 1 / 2⌋

/-- The limit price submitted by `BrokersWatcher::place_orders`:
`((price * 1.021) * 100.0).round() / 100.0` for buys and
`((price * 0.979) * 100.0).round() / 100.0` for sells. -/
def limit_price (order_type : RqOrderType) (price : ℚ) : ℚ :=
  match order_type with
  | RqOrderType.Buy => (rust_round (price * (1021 / 1000) * 100) : ℚ) / 100
  | RqOrderType.Sell => (rust_round (price * (979 / 1000) * 100) : ℚ) / 100

/-- How `BrokersWatcher::place_orders` disposes of one order. -/
inductive PlacedOrderOutcome where
  | skipped_no_price
  | skipped_nonpositive_shares (num_shares : ℤ)
  | simulated (num_shares : ℤ) (price : ℚ)
  | submitted (num_shares : ℤ) (lmt : ℚ)
deriving DecidableEq, Repr

/-- The body of the per-order loop in `BrokersWatcher::place_orders`:
resolve the price, skip on NaN, compute the share count, skip on a
non-positive count, stop before submission when simulating, otherwise
submit a ±2.1% limit order rounded to cents. -/
def place_order_one (is_simulation : Bool) (order : RqOrder)
    (bars : List (Except Unit ℚ)) : PlacedOrderOutcome :=
  match (get_price order.known_last_price bars).1 with
  | none => PlacedOrderOutcome.skipped_no_price
  | some price =>
    let num_shares := f64_div_floor_as_i32 order.pos_market_value price
    if num_shares ≤ 0 then PlacedOrderOutcome.skipped_nonpositive_shares num_shares
    else if is_simulation then PlacedOrderOutcome.simulated num_shares price
    else PlacedOrderOutcome.submitted num_shares (limit_price order.order_type price)

/-- `BrokersWatcher::place_orders` over the whole order list (the empty
list returns immediately); `bars` gives each order's realtime-bar
delivery. -/
def place_orders (is_simulation : Bool) (orders : List RqOrder)
    (bars : RqOrder → List (Except Unit ℚ)) : List PlacedOrderOutcome :=
  orders.map fun order => place_order_one is_simulation order (bars order)

/-- The loop deadline offset chosen by `FastRunnerPqpTask::run` /
`FastRunnerApTask::run`, in milliseconds:
`Duration::from_secs(30)` when simulating, `Duration::from_secs(4*60+30)`
otherwise. -/
def loop_endtime_offset_ms (is_simulation : Bool) : ℕ :=
  if is_simulation then 30 * 1000 else (4 * 60 + 30) * 1000

/-- The bounded polling loop of `FastRunnerPqpTask::run` /
`FastRunnerApTask::run`.  `t n` is the wall-clock instant (ms) at which the
`while` guard is evaluated for the `n`-th time; `evs n` is the detector's
event list on tick `n`.  The loop exits at the first guard check at or
after `endtime`, or right after a tick in force-run mode, or right after a
tick that started trading.  `fuel` bounds the recursion; `none` means the
fuel ran out before an exit was observed.  Result on exit: final runner
state and the index of the last guard check performed. -/
def fast_runner_task_loop (strategy : Strategy) (endtime : ℕ) (t : ℕ → ℕ)
    (evs : ℕ → List TransactionEvent) (is_manual_user_forcerun : Bool) :
    FastRunnerState → ℕ → ℕ → Option (FastRunnerState × ℕ)
  | _, _, 0 => none
  | s, n, fuel + 1 =>
    if t n < endtime then
      let r := runTick s (strategy, evs n)
      if is_manual_user_forcerun then some (r.1, n)
      else if r.1.has_trading_ever_started then some (r.1, n)
      else fast_runner_task_loop strategy endtime t evs is_manual_user_forcerun r.1 (n + 1) fuel
    else some (s, n)

/-- A `chrono::NaiveDate` as a civil (year, month, day) triple. -/
structure CivilDate where
  y : ℤ
  m : ℕ
  d : ℕ
deriving DecidableEq, Repr

/-- Days since 1970-01-01 of a civil date (Gregorian calendar, the
standard days-from-civil algorithm; `chrono`'s day arithmetic agrees with
it on every valid date). -/
def days_from_civil (c : CivilDate) : ℤ :=
  let y := if c.m ≤ 2 then c.y - 1 else c.y
  let era : ℤ := Int.fdiv y 400
  let yoe : ℕ := (y - era * 400).toNat
  let mp : ℕ := if 2 < c.m then c.m - 3 else c.m + 9
  let doy : ℕ := (153 * mp + 2) / 5 + c.d - 1
  let doe : ℕ := yoe * 365 + yoe / 4 - yoe / 100 + doy
  era * 146097 + (doe : ℤ) - 719468

/-- Civil date of a days-since-1970 day number (inverse of
`days_from_civil`). -/
def civil_from_days (z : ℤ) : CivilDate :=
  let z' := z + 719468
  let era : ℤ := Int.fdiv z' 146097
  let doe : ℕ := (z' - era * 146097).toNat
  let yoe : ℕ := (doe - doe / 1460 + doe / 36524 - doe / 146096) / 365
  let y : ℤ := (yoe : ℤ) + era * 400
  let doy : ℕ := doe - (365 * yoe + yoe / 4 - yoe / 100)
  let mp : ℕ := (5 * doy + 2) / 153
  let d : ℕ := doy - (153 * mp + 2) / 5 + 1
  let m : ℕ := if mp < 10 then mp + 3 else mp - 9
  { y := if m ≤ 2 then y + 1 else y, m := m, d := d }

/-- `chrono::Weekday::days_since(Mon)` of a day number: 0 = Monday, …,
5 = Saturday, 6 = Sunday (1970-01-01 was a Thursday, index 3). -/
def num_days_from_monday (z : ℤ) : ℤ :=
  (z + 3) % 7

/-- The PQP virtual/real rebalance day computed by
`FastRunner::pqp_ap_calculate_dates_and_pv`:
`now_utc - Duration::days(now_utc.weekday().days_since(Mon))`,
the current or most recent Monday.  (`pqp_real_rebalance_date` equals the
virtual one; no holiday calendar.) -/
def pqp_real_rebalance_days (now_days : ℤ) : ℤ :=
  now_days - num_days_from_monday now_days

/-- The AP virtual rebalance date computed by
`FastRunner::pqp_ap_calculate_dates_and_pv`: the 15th of the current month
if `now.day() >= 15`, else the 1st (`with_day` keeps year and month). -/
def ap_virtual_rebalance_date (now : CivilDate) : CivilDate :=
  if 15 ≤ now.d then { now with d := 15 } else { now with d := 1 }

/-- The AP real rebalance day: the virtual date rolled forward past a
weekend (`Sat` → +2 days, `Sun` → +1 day, otherwise unchanged). -/
def ap_real_rebalance_days (now : CivilDate) : ℤ :=
  let v := days_from_civil (ap_virtual_rebalance_date now)
  if num_days_from_monday v = 5 then v + 2
  else if num_days_from_monday v = 6 then v + 1
  else v

/-- A naive local timestamp: local calendar day number and second of day. -/
structure LocalDT where
  date : ℤ
  time : ℕ
deriving DecidableEq, Repr

/-- `chrono::LocalResult` for a local → UTC conversion: the local
timestamp can be nonexistent (spring-forward gap), unique, or ambiguous
(fall-back overlap). -/
inductive LocalResult (α : Type) where
  | nonexistent
  | single (a : α)
  | ambiguous (earliest latest : α)
deriving DecidableEq, Repr

/-- `LocalResult::earliest()`. -/
def LocalResult.earliest {α : Type} : LocalResult α → Option α
  | LocalResult.nonexistent => none
  | LocalResult.single a => some a
  | LocalResult.ambiguous e _ => some e

/-- A timezone, modelled by its two conversion functions: the local
timestamp of a UTC instant (seconds since epoch), and the set of UTC
instants reading a given local timestamp (`chrono_tz`'s
`from_local_datetime`). -/
structure TzModel where
  utc_to_local : ℤ → LocalDT
  from_local : LocalDT → LocalResult ℤ

/-- `DateTime::<Utc>::MIN_UTC` (year −262143), as seconds since epoch:
a fixed far-past sentinel. -/
def MIN_UTC : ℤ := -8334601228800

/-- The naive local target chosen by `localtimeonly2future_datetime_tz`
(`rqcommon/utils/time.rs`): today's or tomorrow's occurrence of
`target_time_tz` (strict `<`, so an exact match yields tomorrow). -/
def future_target_tz (tz : TzModel) (now_utc : ℤ) (target_time_tz : ℕ) : LocalDT :=
  let now_tz := tz.utc_to_local now_utc
  if now_tz.time < target_time_tz then
    { date := now_tz.date, time := target_time_tz }
  else
    { date := (tz.utc_to_local (now_utc + 86400)).date, time := target_time_tz }

/-- `localtimeonly2future_datetime_tz`, continued: convert the chosen
naive local timestamp back to an instant picking the earliest valid
interpretation, `MIN_UTC` when the local timestamp does not exist. -/
def localtimeonly2future_datetime_tz (tz : TzModel) (now_utc : ℤ)
    (target_time_tz : ℕ) : ℤ :=
  ((tz.from_local (future_target_tz tz now_utc target_time_tz)).earliest).getD MIN_UTC

/-- A concrete buy event used to instantiate the theorems below. -/
def sampleBuyEvent : TransactionEvent :=
  { transaction_id := "12345"
    order_type := RqOrderType.Buy
    action_date := "2025-11-03"
    ticker := "AAPL"
    company_name := "Apple Inc."
    starting_weight := none
    new_weight := none
    price := some "182.50"
    pos_weight := 0
    pos_market_value := 0 }

/-- A runner state whose buy capital is 70000 (the spec's worked
example). -/
def s70 : FastRunnerState := { FastRunner_new with pqp_buy_pv := 70000 }

/-- Three detected buy events. -/
def events3 : List TransactionEvent := List.replicate 3 sampleBuyEvent

/-- The sample buy event as the PQP sizer sizes it out of `events3`
under `s70`: position market value exactly `70000 / 3`. -/
def sized70 : TransactionEvent := { sampleBuyEvent with pos_market_value := 70000 / 3 }

/-- An order whose resolved price is exactly `0.0`. -/
def zero_price_order : RqOrder :=
  { order_type := RqOrderType.Buy
    ticker := "ZERO"
    company_name := "Zero Price Corp"
    pos_market_value := 1000
    known_last_price := some 0 }

/-- An order with a known price of `10.0` and target value `1000.0`. -/
def ten_price_order : RqOrder :=
  { order_type := RqOrderType.Buy
    ticker := "TEN"
    company_name := "Ten Price Corp"
    pos_market_value := 1000
    known_last_price := some 10 }

/-- An order with no known price. -/
def no_price_order : RqOrder :=
  { order_type := RqOrderType.Buy
    ticker := "NOPX"
    company_name := "No Price Corp"
    pos_market_value := 500
    known_last_price := none }

/-- A timezone model for a spring-forward day whose DST gap covers the
local time 02:30:00 (second-of-day 9000): that naive local time does not
exist; every other local timestamp reads back uniquely. -/
def tz_gap_model : TzModel :=
  { utc_to_local := fun i => { date := Int.fdiv i 86400, time := (Int.emod i 86400).toNat }
    from_local := fun ldt =>
      if ldt.time = 9000 then LocalResult.nonexistent
      else LocalResult.single (ldt.date * 86400 + (ldt.time : ℤ)) }

/- ----------------------------------------------------------------- -/
/- Theorems.  Helper lemmas first, then one theorem per claim.       -/
/- ----------------------------------------------------------------- -/

theorem runTick_nil (s : FastRunnerState) (strat : Strategy) :
    runTick s (strat, []) = (s, none) := by
  cases strat <;> rfl

theorem runTick_spec (s : FastRunnerState) (t : Strategy × List TransactionEvent) :
    runTick s t = (s, none) ∨
    (s.has_trading_ever_started = false ∧
      ∃ orders, runTick s t = ({ s with has_trading_ever_started := true }, some orders)) := by
  obtain ⟨strat, evs⟩ := t
  by_cases hf : s.has_trading_ever_started
  · left
    cases strat <;>
      simp [runTick, fastrunning_loop_pqp_impl, fastrunning_loop_ap_impl, hf]
  · cases strat <;>
      · simp only [runTick, fastrunning_loop_pqp_impl, fastrunning_loop_ap_impl,
          Bool.not_eq_true] at hf ⊢
        split_ifs with h1 h2 h3
        · exact Or.inl rfl
        · exact Or.inl rfl
        · exact absurd h3 (by simp [hf])
        · exact Or.inr ⟨hf, _, rfl⟩

theorem runTick_flag_true (s : FastRunnerState) (t : Strategy × List TransactionEvent)
    (h : s.has_trading_ever_started = true) : runTick s t = (s, none) := by
  rcases runTick_spec s t with heq | ⟨hf, _, _⟩
  · exact heq
  · rw [hf] at h
    exact absurd h (by simp)

theorem runTicks_flag_true (s : FastRunnerState)
    (h : s.has_trading_ever_started = true) :
    ∀ ts, runTicks s ts = (s, 0)
  | [] => rfl
  | t :: ts => by
    simp only [runTicks, runTick_flag_true s t h]
    simp [runTicks_flag_true s h ts]

/-- C1: Exactly-once submission — starting from a TradingSession whose
`has_trading_ever_started` flag is `false` (as `FastRunner::new` creates
it), any sequence of poll ticks reaches the `RoboTrader::place_orders`
call at most once, even if several ticks carry non-empty event lists; and
the flag ends `true` exactly when the one submission happened (the flag
flips `false → true` at most once). -/
theorem C1_exactly_once_submission (s : FastRunnerState)
    (h : s.has_trading_ever_started = false)
    (ts : List (Strategy × List TransactionEvent)) :
    (runTicks s ts).2 ≤ 1 ∧
    ((runTicks s ts).1.has_trading_ever_started = true ↔ (runTicks s ts).2 = 1) := by
  induction ts generalizing s with
  | nil => simp [runTicks, h]
  | cons t ts ih =>
    rcases runTick_spec s t with heq | ⟨-, orders, heq⟩
    · simpa [runTicks, heq] using ih s h
    · have hrest := runTicks_flag_true { s with has_trading_ever_started := true } rfl ts
      simp [runTicks, heq, hrest]

/-- C1 witness: a fresh `FastRunner` state and two ticks that both detect
a non-empty event list still submit at most once, and the flag ends
`true` iff exactly one submission happened. -/
theorem C1_exactly_once_submission_witness :
    FastRunner_new.has_trading_ever_started = false ∧
    (runTicks FastRunner_new
        [(Strategy.pqp, [sampleBuyEvent]), (Strategy.pqp, [sampleBuyEvent])]).2 ≤ 1 ∧
    ((runTicks FastRunner_new
        [(Strategy.pqp, [sampleBuyEvent]), (Strategy.pqp, [sampleBuyEvent])]).1.has_trading_ever_started = true ↔
      (runTicks FastRunner_new
        [(Strategy.pqp, [sampleBuyEvent]), (Strategy.pqp, [sampleBuyEvent])]).2 = 1) :=
  ⟨rfl,
   (C1_exactly_once_submission FastRunner_new rfl
      [(Strategy.pqp, [sampleBuyEvent]), (Strategy.pqp, [sampleBuyEvent])]).1,
   (C1_exactly_once_submission FastRunner_new rfl
      [(Strategy.pqp, [sampleBuyEvent]), (Strategy.pqp, [sampleBuyEvent])]).2⟩

/-- C10: Implicit event-count cap — a tick whose detector output exceeds
14 events (PQP) or 2 events (AP) returns from the loop body with the
runner state unchanged (so `has_trading_ever_started` stays as it was,
in particular `false`), without sizing positions and without reaching the
order submission call. -/
theorem C10_event_count_cap (s : FastRunnerState) (events : List TransactionEvent) :
    (14 < events.length → fastrunning_loop_pqp_impl s events = (s, none)) ∧
    (2 < events.length → fastrunning_loop_ap_impl s events = (s, none)) := by
  constructor
  · intro h
    simp only [fastrunning_loop_pqp_impl]
    rw [if_neg (by omega : ¬ (events.length = 0)), if_pos h]
  · intro h
    simp only [fastrunning_loop_ap_impl]
    rw [if_neg (by omega : ¬ (events.length = 0)), if_pos h]

/-- C10 witness: 15 events are skipped by the PQP loop body and 3 events
by the AP loop body, leaving a fresh runner state unchanged. -/
theorem C10_event_count_cap_witness :
    14 < (List.replicate 15 sampleBuyEvent).length ∧
    fastrunning_loop_pqp_impl FastRunner_new (List.replicate 15 sampleBuyEvent) =
      (FastRunner_new, none) ∧
    2 < (List.replicate 3 sampleBuyEvent).length ∧
    fastrunning_loop_ap_impl FastRunner_new (List.replicate 3 sampleBuyEvent) =
      (FastRunner_new, none) :=
  ⟨by simp,
   (C10_event_count_cap FastRunner_new (List.replicate 15 sampleBuyEvent)).1 (by simp),
   by simp,
   (C10_event_count_cap FastRunner_new (List.replicate 3 sampleBuyEvent)).2 (by simp)⟩

/-- C4: Equal-split sizing — every event sized by the PQP sizer gets, on
the buy side, `pqp_buy_pv / buy_count` (and `0` when there are no buy
events), and on the sell side `pqp_sell_pv / sell_count` (`0` when none);
the AP sizer gives buys `ap_buy_pv / buy_count` (`0` when none); an empty
event list produces no orders, and the zero-count case is an ordinary `0`,
not a division error. -/
theorem C4_equal_split_sizing (s : FastRunnerState) (events : List TransactionEvent)
    (e : TransactionEvent) :
    (e ∈ determine_position_market_values_pqp_gyantal s events →
      (e.order_type = RqOrderType.Buy →
        e.pos_market_value =
          if 0 < (count_order_types events).1 then
            s.pqp_buy_pv / ((count_order_types events).1 : ℚ) else 0) ∧
      (e.order_type = RqOrderType.Sell →
        e.pos_market_value =
          if 0 < (count_order_types events).2 then
            s.pqp_sell_pv / ((count_order_types events).2 : ℚ) else 0)) ∧
    (e ∈ determine_position_market_values_ap_gyantal s events →
      (e.order_type = RqOrderType.Buy →
        e.pos_market_value =
          if 0 < (count_order_types events).1 then
            s.ap_buy_pv / ((count_order_types events).1 : ℚ) else 0)) ∧
    (events = [] →
      determine_position_market_values_pqp_gyantal s events = [] ∧
      determine_position_market_values_ap_gyantal s events = [] ∧
      build_rqorders events = []) := by
  refine ⟨?_, ?_, ?_⟩
  · intro hmem
    obtain ⟨a, ha, rfl⟩ :=
      List.mem_map.1 (by simpa [determine_position_market_values_pqp_gyantal] using hmem)
    cases hord : a.order_type <;>
      simp [hord, pqp_buy_pos_mkt_value, pqp_sell_pos_mkt_value]
  · intro hmem
    obtain ⟨a, ha, rfl⟩ :=
      List.mem_map.1 (by simpa [determine_position_market_values_ap_gyantal] using hmem)
    cases hord : a.order_type <;>
      simp [hord, ap_buy_pos_mkt_value]
  · rintro rfl
    refine ⟨rfl, rfl, rfl⟩

/-- C4 witness: with buy capital 70000 and three detected buy events,
the sized event carries exactly `70000 / 3`. -/
theorem C4_equal_split_sizing_witness :
    sized70 ∈ determine_position_market_values_pqp_gyantal s70 events3 ∧
    sized70.pos_market_value =
      (if 0 < (count_order_types events3).1 then
        s70.pqp_buy_pv / ((count_order_types events3).1 : ℚ) else 0) ∧
    sized70.pos_market_value = (70000 : ℚ) / 3 :=
  ⟨by
    simp [determine_position_market_values_pqp_gyantal, events3, pqp_buy_pos_mkt_value,
      count_order_types, s70, sampleBuyEvent, FastRunner_new, sized70],
   ((C4_equal_split_sizing s70 events3 sized70).1 (by
    simp [determine_position_market_values_pqp_gyantal, events3, pqp_buy_pos_mkt_value,
      count_order_types, s70, sampleBuyEvent, FastRunner_new, sized70])).1 rfl,
   rfl⟩

theorem t_progress (t : ℕ → ℕ) (hmono : ∀ n, t n < t (n + 1)) :
    ∀ n, t 0 + n ≤ t n := by
  intro n
  induction n with
  | zero => simp
  | succ n ih =>
    have := hmono n
    omega

theorem loop_zero_events (strategy : Strategy) (endtime : ℕ) (t : ℕ → ℕ)
    (evs : ℕ → List TransactionEvent) (s : FastRunnerState)
    (hs : s.has_trading_ever_started = false) (hz : ∀ n, evs n = []) :
    ∀ fuel n, endtime ≤ t (n + fuel) →
      ∃ N, n ≤ N ∧ N ≤ n + fuel ∧
        fast_runner_task_loop strategy endtime t evs false s n (fuel + 1) = some (s, N) ∧
        endtime ≤ t N ∧ ∀ k, n ≤ k → k < N → t k < endtime := by
  intro fuel
  induction fuel with
  | zero =>
    intro n hend
    refine ⟨n, le_refl n, by omega, ?_, by simpa using hend, by omega⟩
    simp only [fast_runner_task_loop]
    rw [if_neg (by simpa using hend)]
  | succ fuel ih =>
    intro n hend
    by_cases hg : t n < endtime
    · have hstep : fast_runner_task_loop strategy endtime t evs false s n (fuel + 1 + 1) =
          fast_runner_task_loop strategy endtime t evs false s (n + 1) (fuel + 1) := by
        simp only [fast_runner_task_loop]
        rw [if_pos hg, hz n, runTick_nil]
        simp [hs]
      obtain ⟨N, h1, h2, h3, h4, h5⟩ := ih (n + 1) (by
        have : n + 1 + fuel = n + (fuel + 1) := by omega
        rw [this]
        exact hend)
      refine ⟨N, by omega, by omega, hstep ▸ h3, h4, ?_⟩
      intro k hk1 hk2
      rcases Nat.eq_or_lt_of_le hk1 with rfl | hlt
      · exact hg
      · exact h5 k hlt hk2
    · refine ⟨n, le_refl n, by omega, ?_, by omega, by omega⟩
      simp only [fast_runner_task_loop]
      rw [if_neg hg]

/-- C3: Deadline termination — when the detector returns zero events on
every tick, the bounded polling loop of the FastRunner tasks exits with
the runner state unchanged at the first guard check at or after the
precomputed deadline (start + 30 s when simulating, start + 4 min 30 s
live); every earlier check is before the deadline, and the number of
guard checks is bounded by the deadline offset (each loop iteration
advances the clock by at least one millisecond), so the loop never runs
indefinitely. -/
theorem C3_deadline_termination (strategy : Strategy) (is_sim : Bool) (t : ℕ → ℕ)
    (evs : ℕ → List TransactionEvent) (s : FastRunnerState)
    (hs : s.has_trading_ever_started = false)
    (hmono : ∀ n, t n < t (n + 1)) (hz : ∀ n, evs n = []) :
    ∃ N, N ≤ loop_endtime_offset_ms is_sim ∧
      fast_runner_task_loop strategy (t 0 + loop_endtime_offset_ms is_sim) t evs false s 0
        (loop_endtime_offset_ms is_sim + 1) = some (s, N) ∧
      t 0 + loop_endtime_offset_ms is_sim ≤ t N ∧
      ∀ k, k < N → t k < t 0 + loop_endtime_offset_ms is_sim := by
  obtain ⟨N, h1, h2, h3, h4, h5⟩ :=
    loop_zero_events strategy (t 0 + loop_endtime_offset_ms is_sim) t evs s hs hz
      (loop_endtime_offset_ms is_sim) 0
      (by simpa using t_progress t hmono (loop_endtime_offset_ms is_sim))
  exact ⟨N, by omega, h3, h4, fun k hk => h5 k (by omega) hk⟩

/-- C3 witness: a simulated run whose guard checks happen at 1 ms
spacing and whose detector always returns zero events exits at the 30 s
deadline with the fresh runner state unchanged. -/
theorem C3_deadline_termination_witness :
    ∃ N, N ≤ loop_endtime_offset_ms true ∧
      fast_runner_task_loop Strategy.pqp (id 0 + loop_endtime_offset_ms true) id
        (fun _ => []) false FastRunner_new 0 (loop_endtime_offset_ms true + 1) =
        some (FastRunner_new, N) ∧
      id 0 + loop_endtime_offset_ms true ≤ id N ∧
      ∀ k, k < N → id k < id 0 + loop_endtime_offset_ms true :=
  C3_deadline_termination Strategy.pqp true id (fun _ => []) FastRunner_new rfl
    (fun n => Nat.lt_succ_self n) (fun _ => rfl)

/-- C2 counterexample: the body `"notjson"` passes both marker checks
(it contains neither the subscription marker nor the captcha marker) and
fails structured JSON parsing, and the detector then panics via
`.expect("serde_json::from_str() failed!")` — it does not return an empty
event list. -/
theorem C2_counterexample :
    contains_substr ("notjson") ("Subscription is required") = false ∧
    contains_substr ("notjson") ("captcha.js") = false ∧
    get_new_transactions_pqp_after_fetch FastRunner_new "notjson" none (Except.error ()) =
      Except.error ("serde_json::from_str() failed!") :=
  ⟨by decide, by decide, by rfl⟩

/-- C2 (amended): the `AuthExpired` (subscription marker) and `Blocked`
(captcha marker) responses are non-fatal — the detector logs them,
records them in the run log (PQP; the AP reader only logs), and returns
an empty event list so the polling loop retries — but a body that passes
the marker checks and fails structured JSON parsing makes the detector
panic through `.expect`, aborting the task, rather than returning an
empty list. -/
theorem C2_response_classification (s : FastRunnerState) (body : String)
    (parse : Option PortfhistResponse) (parseA : Option AnalysisResponse)
    (ar : Except Unit (String × List TransactionEvent)) :
    (body.length < 1000 → contains_substr body ("Subscription is required") = true →
      get_new_transactions_pqp_after_fetch s body parse ar =
        Except.ok ({ s with user_log := s.user_log ++ "!Error. No permission, Update cookie file.\n" },
          s.pqp_json_target_date_str, [])) ∧
    (body.length < 1000 → contains_substr body ("Subscription is required") = false →
      contains_substr body ("captcha.js") = true →
      get_new_transactions_pqp_after_fetch s body parse ar =
        Except.ok ({ s with user_log := s.user_log ++
            "!Error. Captcha required, Update cookie file AND handle Captcha in browser.\n" },
          s.pqp_json_target_date_str, [])) ∧
    (¬ (body.length < 1000 ∧ (contains_substr body ("Subscription is required") = true ∨
        contains_substr body ("captcha.js") = true)) →
      parse = none →
      get_new_transactions_pqp_after_fetch s body parse ar =
        Except.error ("serde_json::from_str() failed!")) ∧
    (contains_substr body ("\"isPaywalled\":false") = false →
      get_new_transactions_ap_after_fetch s body parseA =
        Except.ok (s, s.ap_json_target_date_str, [])) ∧
    (contains_substr body ("\"isPaywalled\":false") = true →
      contains_substr body ("captcha.js") = true →
      get_new_transactions_ap_after_fetch s body parseA =
        Except.ok (s, s.ap_json_target_date_str, [])) ∧
    (contains_substr body ("\"isPaywalled\":false") = true →
      contains_substr body ("captcha.js") = false →
      parseA = none →
      get_new_transactions_ap_after_fetch s body parseA =
        Except.error ("serde_json::from_str() failed for AnalysisResponse!")) := by
  refine ⟨?_, ?_, ?_, ?_, ?_, ?_⟩
  · intro hlen hsub
    simp [get_new_transactions_pqp_after_fetch, hlen, hsub]
  · intro hlen hsub hcap
    simp [get_new_transactions_pqp_after_fetch, hlen, hsub, hcap]
  · intro hmk hp
    subst hp
    by_cases hlen : body.length < 1000
    · have hsub : contains_substr body ("Subscription is required") = false := by
        rcases Bool.eq_false_or_eq_true (contains_substr body ("Subscription is required")) with h | h
        · exact absurd ⟨hlen, Or.inl h⟩ hmk
        · exact h
      have hcap : contains_substr body ("captcha.js") = false := by
        rcases Bool.eq_false_or_eq_true (contains_substr body ("captcha.js")) with h | h
        · exact absurd ⟨hlen, Or.inr h⟩ hmk
        · exact h
      simp [get_new_transactions_pqp_after_fetch, hlen, hsub, hcap]
    · simp [get_new_transactions_pqp_after_fetch, hlen]
  · intro hpw
    simp [get_new_transactions_ap_after_fetch, hpw]
  · intro hpw hcap
    simp [get_new_transactions_ap_after_fetch, hpw, hcap]
  · intro hpw hcap hp
    subst hp
    simp [get_new_transactions_ap_after_fetch, hpw, hcap]

/-- C2 witness: a short body consisting of the subscription marker is
classified as `AuthExpired` — logged into the run log and answered with
an empty event list, without aborting. -/
theorem C2_response_classification_witness :
    get_new_transactions_pqp_after_fetch FastRunner_new "Subscription is required" none
        (Except.error ()) =
      Except.ok ({ FastRunner_new with
          user_log := FastRunner_new.user_log ++ "!Error. No permission, Update cookie file.\n" },
        FastRunner_new.pqp_json_target_date_str, []) :=
  (C2_response_classification FastRunner_new "Subscription is required" none none
      (Except.error ())).1 (by decide) (by decide)

theorem ensure_cookies_loaded_cached (s1 : FastRunnerState)
    (h : s1.m_is_cookies_surely_working = false) (x : String) (mt : ℕ)
    (hc : s1.cookies = some x) (hm : s1.cookies_file_last_modtime = some mt)
    (c' : String) :
    ensure_cookies_loaded s1 mt c' = (s1, FileAccess.statOnly) := by
  simp [ensure_cookies_loaded, h, hc, hm]

theorem ensure_cookies_loaded_post (s : FastRunnerState)
    (h : s.m_is_cookies_surely_working = false) (mt : ℕ) (c : String) :
    (ensure_cookies_loaded s mt c).1.m_is_cookies_surely_working = false ∧
    ∃ x, (ensure_cookies_loaded s mt c).1.cookies = some x ∧
      (ensure_cookies_loaded s mt c).1.cookies_file_last_modtime = some mt := by
  rcases hcs : s.cookies with _ | x
  · simp [ensure_cookies_loaded, h, hcs]
  · rcases hcm : s.cookies_file_last_modtime with _ | t
    · simp [ensure_cookies_loaded, h, hcs, hcm]
    · by_cases ht : t = mt
      · subst ht
        simp [ensure_cookies_loaded, h, hcs, hcm]
      · simp [ensure_cookies_loaded, h, hcs, hcm, ht]

/-- C9: Cookie cache short-circuit — when the cookie-verified-working
flag is set, a detector call does not even stat the cookie file; with the
flag clear, a second consecutive call against an unchanged modification
time performs only the metadata stat and leaves the state untouched
(no content re-read); and a changed modification time forces a re-read
of the contents, caching the trimmed content and the new time. -/
theorem C9_cookie_cache (s : FastRunnerState) (mt mt' : ℕ) (c c' : String) :
    (s.m_is_cookies_surely_working = true →
      ensure_cookies_loaded s mt c = (s, FileAccess.noAccess)) ∧
    (s.m_is_cookies_surely_working = false →
      ensure_cookies_loaded (ensure_cookies_loaded s mt c).1 mt c' =
        ((ensure_cookies_loaded s mt c).1, FileAccess.statOnly)) ∧
    (s.m_is_cookies_surely_working = false →
      s.cookies_file_last_modtime = some mt' → mt' ≠ mt →
      (ensure_cookies_loaded s mt c).2 = FileAccess.statAndRead ∧
      (ensure_cookies_loaded s mt c).1.cookies = some c.trim ∧
      (ensure_cookies_loaded s mt c).1.cookies_file_last_modtime = some mt) := by
  refine ⟨?_, ?_, ?_⟩
  · intro h
    simp [ensure_cookies_loaded, h]
  · intro h
    obtain ⟨h1, x, hc1, hm1⟩ := ensure_cookies_loaded_post s h mt c
    exact ensure_cookies_loaded_cached _ h1 x mt hc1 hm1 c'
  · intro h hm hne
    have hne' : ¬ (mt' = mt) := hne
    simp [ensure_cookies_loaded, h, hm, hne']

/-- C9 witness: with a fresh runner (flag clear), a first call caches the
file and the immediate second call against the same modification time is
stat-only; against a state already holding modification time 3, a call
seeing time 5 re-reads the contents. -/
theorem C9_cookie_cache_witness :
    ensure_cookies_loaded (ensure_cookies_loaded FastRunner_new 5 "tok").1 5 "tok2" =
      ((ensure_cookies_loaded FastRunner_new 5 "tok").1, FileAccess.statOnly) ∧
    (ensure_cookies_loaded
        { FastRunner_new with cookies := some "old", cookies_file_last_modtime := some 3 }
        5 " newtok ").2 = FileAccess.statAndRead ∧
    (ensure_cookies_loaded
        { FastRunner_new with cookies := some "old", cookies_file_last_modtime := some 3 }
        5 " newtok ").1.cookies = some (String.trim " newtok ") :=
  ⟨((C9_cookie_cache FastRunner_new 5 3 "tok" "tok2").2.1) rfl,
   (((C9_cookie_cache
      { FastRunner_new with cookies := some "old", cookies_file_last_modtime := some 3 }
      5 3 " newtok " "x").2.2) rfl rfl (by decide)).1,
   (((C9_cookie_cache
      { FastRunner_new with cookies := some "old", cookies_file_last_modtime := some 3 }
      5 3 " newtok " "x").2.2) rfl rfl (by decide)).2.1⟩

/-- C5 counterexample: an order whose price resolves to exactly `0.0`
(non-positive) with a positive target value is not skipped — the f64
division yields +∞, the saturating `as i32` cast makes the share count
`i32::MAX`, and a real (non-simulation) run reaches the submission call
with 2147483647 shares at limit price `0.00`. -/
theorem C5_counterexample :
    (get_price zero_price_order.known_last_price []).1 = some 0 ∧
    place_order_one false zero_price_order [] =
      PlacedOrderOutcome.submitted 2147483647 0 := by
  refine ⟨rfl, ?_⟩
  have hns : f64_div_floor_as_i32 (1000 : ℚ) 0 = 2147483647 := by
    norm_num [f64_div_floor_as_i32, i32_max]
  have hlp : limit_price RqOrderType.Buy 0 = 0 := by
    norm_num [limit_price, rust_round]
  simp [place_order_one, get_price, zero_price_order, hns, hlp]

/-- C5 (amended): `place_orders` resolves the price first and skips the
order when it is unresolved; the share count is the f64-floored,
`i32`-saturated quotient `targetValue / price` (equal to the plain floor
whenever that lies in `i32` range); a non-positive share count is
skipped, which covers a negative resolved price, but a resolved price of
exactly `0` with positive target value yields `i32::MAX` shares and is
submitted rather than skipped; simulation stops before submission; a real
run submits a limit order at the resolved price +2.1 % for buys and
−2.1 % for sells, rounded to cents. -/
theorem C5_submission_mechanics (is_sim : Bool) (order : RqOrder)
    (bars : List (Except Unit ℚ)) (p : ℚ) :
    ((get_price order.known_last_price bars).1 = none →
      place_order_one is_sim order bars = PlacedOrderOutcome.skipped_no_price) ∧
    ((get_price order.known_last_price bars).1 = some p →
      ((f64_div_floor_as_i32 order.pos_market_value p ≤ 0 →
        place_order_one is_sim order bars =
          PlacedOrderOutcome.skipped_nonpositive_shares
            (f64_div_floor_as_i32 order.pos_market_value p)) ∧
       (0 < f64_div_floor_as_i32 order.pos_market_value p → is_sim = true →
        place_order_one is_sim order bars =
          PlacedOrderOutcome.simulated (f64_div_floor_as_i32 order.pos_market_value p) p) ∧
       (0 < f64_div_floor_as_i32 order.pos_market_value p → is_sim = false →
        place_order_one is_sim order bars =
          PlacedOrderOutcome.submitted (f64_div_floor_as_i32 order.pos_market_value p)
            (limit_price order.order_type p)))) ∧
    (p < 0 → 0 < order.pos_market_value →
      f64_div_floor_as_i32 order.pos_market_value p < 0) ∧
    (p = 0 → 0 < order.pos_market_value →
      f64_div_floor_as_i32 order.pos_market_value p = i32_max) ∧
    (0 < p → i32_min ≤ ⌊order.pos_market_value / p⌋ →
      ⌊order.pos_market_value / p⌋ ≤ i32_max →
      f64_div_floor_as_i32 order.pos_market_value p = ⌊order.pos_market_value / p⌋) := by
  refine ⟨?_, ?_, ?_, ?_, ?_⟩
  · intro h
    simp [place_order_one, h]
  · intro h
    refine ⟨fun hns => ?_, fun hns hsim => ?_, fun hns hsim => ?_⟩
    · simp [place_order_one, h, hns]
    · subst hsim
      simp only [place_order_one, h]
      rw [if_neg (by omega)]
      simp
    · subst hsim
      simp only [place_order_one, h]
      rw [if_neg (by omega)]
      simp
  · intro hp hv
    have hpne : p ≠ 0 := ne_of_lt hp
    have hq : order.pos_market_value / p < 0 := div_neg_of_pos_of_neg hv hp
    have hf : ⌊order.pos_market_value / p⌋ < 0 := by
      rw [Int.floor_lt]
      exact_mod_cast hq
    rw [f64_div_floor_as_i32, if_neg hpne,
      min_eq_right (le_of_lt (lt_trans hf (by norm_num [i32_max])))]
    exact max_lt (by norm_num [i32_min]) hf
  · intro hp hv
    rw [f64_div_floor_as_i32, if_pos hp, if_pos hv]
  · intro hp h1 h2
    rw [f64_div_floor_as_i32, if_neg (ne_of_gt hp), min_eq_right h2, max_eq_right h1]

/-- C5 witness: a real-mode buy order with resolved price `10.0` and
target value `1000.0` is submitted with `⌊1000 / 10⌋ = 100` shares at the
cent-rounded limit price `10.21` (+2.1 %). -/
theorem C5_submission_mechanics_witness :
    place_order_one false ten_price_order [] =
      PlacedOrderOutcome.submitted
        (f64_div_floor_as_i32 ten_price_order.pos_market_value 10)
        (limit_price ten_price_order.order_type 10) ∧
    f64_div_floor_as_i32 ten_price_order.pos_market_value 10 = 100 ∧
    limit_price ten_price_order.order_type 10 = 1021 / 100 :=
  ⟨((C5_submission_mechanics false ten_price_order [] 10).2.1 rfl).2.2
     (by norm_num [f64_div_floor_as_i32, ten_price_order, i32_max, i32_min]) rfl,
   by norm_num [f64_div_floor_as_i32, ten_price_order, i32_max, i32_min],
   by norm_num [limit_price, ten_price_order, rust_round]⟩

/-- C6: Price resolution — a parseable known price string such as
`"182.50"` becomes the order's known price and `get_price` returns it
without issuing any realtime-bar request; with no known price the
realtime-bar stream is requested and the first delivered bar's close is
the single sample taken; a stream that closes without delivering a bar
yields `none` (NaN, "unresolved") rather than a crash, and the caller
then skips that instrument. -/
theorem C6_price_resolution (p b : ℚ) (bars rest : List (Except Unit ℚ))
    (e : TransactionEvent) (is_sim : Bool) (order : RqOrder) :
    rust_parse_f64 "182.50" = some (365 / 2) ∧
    get_price (some p) bars = (some p, false) ∧
    get_price none [] = (none, true) ∧
    get_price none (Except.ok b :: rest) = (some b, true) ∧
    (e.price = some "182.50" →
      (build_rqorders [e]).map (fun o => o.known_last_price) = [some (365 / 2)]) ∧
    (order.known_last_price = none →
      place_order_one is_sim order [] = PlacedOrderOutcome.skipped_no_price) := by
  have hparse : rust_parse_f64 "182.50" = some (365 / 2) := by
    rw [show rust_parse_f64 "182.50" =
      some (((182 : ℕ) : ℚ) + ((50 : ℕ) : ℚ) / (10 : ℚ) ^ (2 : ℕ)) from rfl]
    norm_num
  refine ⟨hparse, rfl, rfl, rfl, ?_, ?_⟩
  · intro h
    simp [build_rqorders, h, hparse]
  · intro h
    simp [place_order_one, get_price, h]

/-- C6 witness: the sample event carrying the price string `"182.50"`
produces an order with known price `182.50`, and an order with no known
price and an empty bar delivery is skipped rather than crashing. -/
theorem C6_price_resolution_witness :
    (build_rqorders [sampleBuyEvent]).map (fun o => o.known_last_price) =
      [some ((365 : ℚ) / 2)] ∧
    place_order_one true no_price_order [] = PlacedOrderOutcome.skipped_no_price :=
  ⟨(C6_price_resolution 0 0 [] [] sampleBuyEvent true no_price_order).2.2.2.2.1 rfl,
   (C6_price_resolution 0 0 [] [] sampleBuyEvent true no_price_order).2.2.2.2.2 rfl⟩

/-- C7: Target rebalance-date rule — the weekly (PQP) target day is the
current or most recent Monday (Monday's weekday index is 0, it is at most
today, and less than a week back); the monthly (AP) virtual date is the
15th when today's day-of-month is ≥ 15 and the 1st otherwise; a virtual
date falling on Saturday rolls two days to the following Monday and one
falling on Sunday rolls one day to the following Monday, so the real date
is never a weekend day; concretely, 2025-11-01 is a Saturday and the AP
target for 2025-11-05 is 2025-11-03, while 2026-02-01 is a Sunday and the
AP target for 2026-02-03 is 2026-02-02. -/
theorem C7_rebalance_date_rule (z : ℤ) (now : CivilDate) :
    (num_days_from_monday (pqp_real_rebalance_days z) = 0 ∧
      pqp_real_rebalance_days z ≤ z ∧ z - pqp_real_rebalance_days z < 7) ∧
    ((15 ≤ now.d → ap_virtual_rebalance_date now = { now with d := 15 }) ∧
      (now.d < 15 → ap_virtual_rebalance_date now = { now with d := 1 })) ∧
    ((num_days_from_monday (days_from_civil (ap_virtual_rebalance_date now)) = 5 →
        ap_real_rebalance_days now = days_from_civil (ap_virtual_rebalance_date now) + 2 ∧
        num_days_from_monday (ap_real_rebalance_days now) = 0) ∧
      (num_days_from_monday (days_from_civil (ap_virtual_rebalance_date now)) = 6 →
        ap_real_rebalance_days now = days_from_civil (ap_virtual_rebalance_date now) + 1 ∧
        num_days_from_monday (ap_real_rebalance_days now) = 0) ∧
      (num_days_from_monday (days_from_civil (ap_virtual_rebalance_date now)) < 5 →
        ap_real_rebalance_days now = days_from_civil (ap_virtual_rebalance_date now)) ∧
      num_days_from_monday (ap_real_rebalance_days now) < 5) ∧
    civil_from_days (ap_real_rebalance_days { y := 2025, m := 11, d := 5 }) =
      { y := 2025, m := 11, d := 3 } ∧
    num_days_from_monday (days_from_civil { y := 2025, m := 11, d := 1 }) = 5 ∧
    civil_from_days (ap_real_rebalance_days { y := 2026, m := 2, d := 3 }) =
      { y := 2026, m := 2, d := 2 } ∧
    num_days_from_monday (days_from_civil { y := 2026, m := 2, d := 1 }) = 6 := by
  have hb : ∀ a : ℤ, 0 ≤ a % 7 ∧ a % 7 < 7 := fun a =>
    ⟨Int.emod_nonneg a (by norm_num), Int.emod_lt_of_pos a (by norm_num)⟩
  have hshift : ∀ a : ℤ, (a - a % 7) % 7 = 0 := fun a => by
    rw [Int.sub_emod, Int.emod_emod_of_dvd a (dvd_refl 7), sub_self, Int.zero_emod]
  refine ⟨⟨?_, ?_, ?_⟩, ⟨fun h => ?_, fun h => ?_⟩, ⟨fun h => ?_, fun h => ?_, fun h => ?_, ?_⟩,
    by decide, by decide, by decide, by decide⟩
  · show (z - (z + 3) % 7 + 3) % 7 = 0
    rw [show z - (z + 3) % 7 + 3 = (z + 3) - (z + 3) % 7 from by ring, hshift]
  · have := hb (z + 3)
    show z - (z + 3) % 7 ≤ z
    omega
  · have := hb (z + 3)
    show z - (z - (z + 3) % 7) < 7
    omega
  · rw [ap_virtual_rebalance_date, if_pos h]
  · rw [ap_virtual_rebalance_date, if_neg (by omega)]
  · constructor
    · simp only [ap_real_rebalance_days]
      rw [if_pos h]
    · simp only [ap_real_rebalance_days]
      rw [if_pos h]
      simp only [num_days_from_monday] at h ⊢
      rw [show days_from_civil (ap_virtual_rebalance_date now) + 2 + 3 =
          days_from_civil (ap_virtual_rebalance_date now) + 3 + 2 from by ring,
        Int.add_emod, h]
      decide
  · have h5 : ¬ num_days_from_monday (days_from_civil (ap_virtual_rebalance_date now)) = 5 := by
      rw [h]
      decide
    constructor
    · simp only [ap_real_rebalance_days]
      rw [if_neg h5, if_pos h]
    · simp only [ap_real_rebalance_days]
      rw [if_neg h5, if_pos h]
      simp only [num_days_from_monday] at h ⊢
      rw [show days_from_civil (ap_virtual_rebalance_date now) + 1 + 3 =
          days_from_civil (ap_virtual_rebalance_date now) + 3 + 1 from by ring,
        Int.add_emod, h]
      decide
  · have hw := hb (days_from_civil (ap_virtual_rebalance_date now) + 3)
    simp only [num_days_from_monday] at h
    have h5 : ¬ num_days_from_monday (days_from_civil (ap_virtual_rebalance_date now)) = 5 := by
      simp only [num_days_from_monday]
      omega
    have h6 : ¬ num_days_from_monday (days_from_civil (ap_virtual_rebalance_date now)) = 6 := by
      simp only [num_days_from_monday]
      omega
    simp only [ap_real_rebalance_days]
    rw [if_neg h5, if_neg h6]
  · by_cases h5 : num_days_from_monday (days_from_civil (ap_virtual_rebalance_date now)) = 5
    · simp only [ap_real_rebalance_days]
      rw [if_pos h5]
      simp only [num_days_from_monday] at h5 ⊢
      rw [show days_from_civil (ap_virtual_rebalance_date now) + 2 + 3 =
          days_from_civil (ap_virtual_rebalance_date now) + 3 + 2 from by ring,
        Int.add_emod, h5]
      decide
    · by_cases h6 : num_days_from_monday (days_from_civil (ap_virtual_rebalance_date now)) = 6
      · simp only [ap_real_rebalance_days]
        rw [if_neg h5, if_pos h6]
        simp only [num_days_from_monday] at h6 ⊢
        rw [show days_from_civil (ap_virtual_rebalance_date now) + 1 + 3 =
            days_from_civil (ap_virtual_rebalance_date now) + 3 + 1 from by ring,
          Int.add_emod, h6]
        decide
      · simp only [ap_real_rebalance_days]
        rw [if_neg h5, if_neg h6]
        simp only [num_days_from_monday] at h5 h6 ⊢
        have := hb (days_from_civil (ap_virtual_rebalance_date now) + 3)
        omega

/-- C7 witness: for 2025-11-05 (day number 20397) the weekly target is a
Monday; the monthly virtual date is the 1st (2025-11-01, a Saturday), and
the real date rolls two days forward. -/
theorem C7_rebalance_date_rule_witness :
    num_days_from_monday (pqp_real_rebalance_days 20397) = 0 ∧
    ap_virtual_rebalance_date { y := 2025, m := 11, d := 5 } =
      { y := 2025, m := 11, d := 1 } ∧
    ap_real_rebalance_days { y := 2025, m := 11, d := 5 } =
      days_from_civil (ap_virtual_rebalance_date { y := 2025, m := 11, d := 5 }) + 2 :=
  ⟨(C7_rebalance_date_rule 20397 { y := 2025, m := 11, d := 5 }).1.1,
   (C7_rebalance_date_rule 20397 { y := 2025, m := 11, d := 5 }).2.1.2 (by decide),
   ((C7_rebalance_date_rule 20397 { y := 2025, m := 11, d := 5 }).2.2.1.1 (by decide)).1⟩

/-- C8 counterexample: a configured local time lying exactly in the
spring-forward gap (second-of-day 9000 in `tz_gap_model`) makes
`localtimeonly2future_datetime_tz` return the far-past sentinel
`MIN_UTC`, which is strictly before the call instant 0 — not an
earliest-valid future instant. -/
theorem C8_counterexample :
    localtimeonly2future_datetime_tz tz_gap_model 0 9000 = MIN_UTC ∧
    localtimeonly2future_datetime_tz tz_gap_model 0 9000 < 0 := by
  constructor <;> decide

/-- C8 (amended): when the computed naive local target is nonexistent
(a spring-forward gap), the function returns the far-past sentinel
`MIN_UTC` — so the caller treats the task as immediately due — rather
than a future valid instant; when the local target is unique it returns
that instant, and when it is ambiguous (fall-back overlap) it returns the
earliest valid interpretation. -/
theorem C8_dst_gap_sentinel (tz : TzModel) (now_utc : ℤ) (target : ℕ) (a e l : ℤ) :
    (tz.from_local (future_target_tz tz now_utc target) = LocalResult.nonexistent →
      localtimeonly2future_datetime_tz tz now_utc target = MIN_UTC) ∧
    (tz.from_local (future_target_tz tz now_utc target) = LocalResult.single a →
      localtimeonly2future_datetime_tz tz now_utc target = a) ∧
    (tz.from_local (future_target_tz tz now_utc target) = LocalResult.ambiguous e l →
      localtimeonly2future_datetime_tz tz now_utc target = e) := by
  refine ⟨fun h => ?_, fun h => ?_, fun h => ?_⟩ <;>
    simp [localtimeonly2future_datetime_tz, h, LocalResult.earliest]

/-- C8 witness: in the gap timezone model, the gap time 9000 resolves to
the `MIN_UTC` sentinel, while the ordinary local time 500 resolves to the
unique instant 500. -/
theorem C8_dst_gap_sentinel_witness :
    localtimeonly2future_datetime_tz tz_gap_model 0 9000 = MIN_UTC ∧
    localtimeonly2future_datetime_tz tz_gap_model 0 500 = 0 * 86400 + (500 : ℤ) :=
  ⟨(C8_dst_gap_sentinel tz_gap_model 0 9000 0 0 0).1 (by decide),
   (C8_dst_gap_sentinel tz_gap_model 0 500 (0 * 86400 + (500 : ℤ)) 0 0).2.1 (by decide)⟩

end RqCore
